import Mathlib

/-!
Verification of the cross-filesystem transfer utility of fs-hdfs
(`src/util.rs`, `HdfsUtil::copy` and `HdfsUtil::mv`).

The wrapper is embedded shallowly: a Rust `&str` is its UTF-8 byte sequence,
`CString::new` is the partial conversion that fails exactly on an interior
null byte, a filesystem handle is an opaque raw value, and the native entry
points (`hdfsCopy` / `hdfsMove`, which live in the wrapped native client
library, outside this repository) are an oracle parameter mapping a world
state and the four call arguments to an integer status code and a new world
state.  Each wrapper function additionally returns the list of native calls
it performed, so that "invoked exactly once / never invoked" is provable.
A Rust panic (the `unwrap()` on a failed conversion) is a distinguished
outcome, separate from returning a `Result`.
-/

namespace FsHdfs

/-- Byte sequence of a Rust `&str` (UTF-8 bytes, each conceptually < 256;
the bound is irrelevant to every property proved here). -/
abbrev RStr := List Nat

/-- Embedding of `std::ffi::CString::new`: succeeds iff the byte sequence
contains no interior null byte, returning the (logically null-terminated)
C string, and fails (Rust: `Err(NulError)`) otherwise. -/
def cstringNew (s : RStr) : Option RStr :=
  if s.contains 0 then none else some s

/-- Modelled from the spec: the wrapper error type `HdfsErr` (its defining
module `err.rs` is not under `src/`).  The spec describes it as a small
enumerated set, e.g. invalid-path-encoding and native-call-failed;
`Unknown` is the generic native-call-failed kind that `util.rs` uses. -/
inductive HdfsErr where
  | Unknown
  | InvalidPathEncoding
deriving DecidableEq, Repr

/-- A filesystem handle as seen by this layer: an opaque raw native pointer
value, obtained by `HdfsFs::raw()` and only ever passed through. -/
structure HdfsFs where
  raw : Nat
deriving DecidableEq, Repr

/-- Argument record of one native transfer call, in the order the native
entry points take them: (source handle, source path pointer, destination
handle, destination path pointer). -/
structure NativeCall where
  srcFS : Nat
  srcPath : RStr
  dstFS : Nat
  dstPath : RStr
deriving DecidableEq, Repr

/-- World state visible through the native boundary: the currently open
handle values, and for each handle value and path whether that path exists
on the corresponding filesystem. -/
structure FsWorld where
  handles : List Nat
  pathExists : Nat → RStr → Bool

/-- Outcome of a Rust function call that may panic: either a returned value
or a panic (here only the `unwrap()` on a failed `CString` conversion). -/
inductive RustOutcome (α : Type) where
  | ok : α → RustOutcome α
  | panicked : RustOutcome α
deriving DecidableEq, Repr

/-- Equality of Rust `Result` values (embedded as `Except`) is decidable
when it is decidable on both components. -/
instance {α β : Type} [DecidableEq α] [DecidableEq β] :
    DecidableEq (Except α β) := fun a b =>
  match a, b with
  | .ok x, .ok y =>
    if h : x = y then isTrue (by rw [h])
    else isFalse (fun q => by cases q; exact h rfl)
  | .ok _, .error _ => isFalse (fun q => by cases q)
  | .error _, .ok _ => isFalse (fun q => by cases q)
  | .error x, .error y =>
    if h : x = y then isTrue (by rw [h])
    else isFalse (fun q => by cases q; exact h rfl)

/-- Type of a native transfer entry point: given the current world and the
four call arguments, it returns an integer status code (zero means success)
and the world after the call. -/
abbrev NativeFn := FsWorld → NativeCall → Int × FsWorld

/-- Embedding of `HdfsUtil::copy` (src/util.rs lines 32-55), parameterised
by the native `hdfsCopy` entry point.  It converts the source path with
`CString::new(src).unwrap()` (panicking on an interior null byte before
anything else happens), then the destination path likewise, then invokes
`hdfsCopy(src_fs.raw(), cstr_src.as_ptr(), dst_fs.raw(), cstr_dst.as_ptr())`
once, and maps status `0` to `Ok(true)` and any other status to
`Err(HdfsErr::Unknown)`.  Besides the Rust result it returns the world
after the call and the list of native calls performed. -/
def HdfsUtil.copy (hdfsCopy : NativeFn) (w : FsWorld)
    (src_fs : HdfsFs) (src : RStr) (dst_fs : HdfsFs) (dst : RStr) :
    RustOutcome (Except HdfsErr Bool) × FsWorld × List NativeCall :=
  match cstringNew src with
  | none => (.panicked, w, [])
  | some cstr_src =>
    match cstringNew dst with
    | none => (.panicked, w, [])
    | some cstr_dst =>
      let call : NativeCall := ⟨src_fs.raw, cstr_src, dst_fs.raw, cstr_dst⟩
      let r := hdfsCopy w call
      (if r.1 = 0 then .ok (.ok true) else .ok (.error HdfsErr.Unknown),
        r.2, [call])

/-- Embedding of `HdfsUtil::mv` (src/util.rs lines 57-86), parameterised by
the native `hdfsMove` entry point; identical to `copy` except for the
native entry point invoked. -/
def HdfsUtil.mv (hdfsMove : NativeFn) (w : FsWorld)
    (src_fs : HdfsFs) (src : RStr) (dst_fs : HdfsFs) (dst : RStr) :
    RustOutcome (Except HdfsErr Bool) × FsWorld × List NativeCall :=
  match cstringNew src with
  | none => (.panicked, w, [])
  | some cstr_src =>
    match cstringNew dst with
    | none => (.panicked, w, [])
    | some cstr_dst =>
      let call : NativeCall := ⟨src_fs.raw, cstr_src, dst_fs.raw, cstr_dst⟩
      let r := hdfsMove w call
      (if r.1 = 0 then .ok (.ok true) else .ok (.error HdfsErr.Unknown),
        r.2, [call])

/-- Modelled from the spec: the native copy primitive (`hdfsCopy` of the
wrapped native client library, not under `src/`).  Per the spec, copy
duplicates data at the destination leaving the source unchanged, returns
status zero on success and non-zero on failure, performs the data transfer
only, and never creates or closes a filesystem handle. -/
def nativeCopy : NativeFn := fun w c =>
  if w.pathExists c.srcFS c.srcPath then
    (0, ⟨w.handles, fun f p =>
      if f == c.dstFS && p == c.dstPath then true else w.pathExists f p⟩)
  else (-1, w)

/-- Modelled from the spec: the native move primitive (`hdfsMove` of the
wrapped native client library, not under `src/`).  Per the spec, move
relocates data so that it exists at the destination and no longer exists at
the source, returns status zero on success and non-zero on failure, and
never creates or closes a filesystem handle. -/
def nativeMove : NativeFn := fun w c =>
  if w.pathExists c.srcFS c.srcPath then
    (0, ⟨w.handles, fun f p =>
      if f == c.dstFS && p == c.dstPath then true
      else if f == c.srcFS && p == c.srcPath then false
      else w.pathExists f p⟩)
  else (-1, w)

/-- A concrete world used by witness theorems: handles 1 and 2 are open and
path `[97]` (the byte of `"a"`) exists on the filesystem of handle 1. -/
def W0 : FsWorld := ⟨[1, 2], fun f p => f == 1 && p == [97]⟩

/-- A concrete native oracle used by witness theorems: always succeeds and
leaves the world unchanged. -/
def oracleZero : NativeFn := fun w _ => (0, w)

/-- A concrete native oracle used by witness theorems: always fails with
status -1 and leaves the world unchanged. -/
def oracleFail : NativeFn := fun w _ => (-1, w)

/-- Helper: the conversion succeeds, returning the string itself, whenever
the byte sequence has no interior null byte. -/
theorem cstringNew_eq_some {s : RStr} (h : s.contains 0 = false) :
    cstringNew s = some s := by
  unfold cstringNew
  rw [h]
  rfl

/-- Helper: the conversion fails whenever the byte sequence contains an
interior null byte. -/
theorem cstringNew_eq_none {s : RStr} (h : s.contains 0 = true) :
    cstringNew s = none := by
  unfold cstringNew
  rw [h]
  rfl

/-- C1: for every native oracle, world, pair of filesystem handles and pair
of null-free path strings, `HdfsUtil::copy` (and likewise `HdfsUtil::mv`)
returns a success value iff the native call returns status code zero, and
any non-zero native status is surfaced as the single generic failure kind
`HdfsErr::Unknown`, never as a success value. -/
theorem copy_mv_success_iff_status_zero
    (hdfsCopy hdfsMove : NativeFn) (w : FsWorld)
    (src_fs dst_fs : HdfsFs) (src dst : RStr)
    (hs : src.contains 0 = false) (hd : dst.contains 0 = false) :
    ((HdfsUtil.copy hdfsCopy w src_fs src dst_fs dst).1 = .ok (.ok true)
      ↔ (hdfsCopy w ⟨src_fs.raw, src, dst_fs.raw, dst⟩).1 = 0)
    ∧ ((hdfsCopy w ⟨src_fs.raw, src, dst_fs.raw, dst⟩).1 ≠ 0
      → (HdfsUtil.copy hdfsCopy w src_fs src dst_fs dst).1
          = .ok (.error HdfsErr.Unknown))
    ∧ ((HdfsUtil.mv hdfsMove w src_fs src dst_fs dst).1 = .ok (.ok true)
      ↔ (hdfsMove w ⟨src_fs.raw, src, dst_fs.raw, dst⟩).1 = 0)
    ∧ ((hdfsMove w ⟨src_fs.raw, src, dst_fs.raw, dst⟩).1 ≠ 0
      → (HdfsUtil.mv hdfsMove w src_fs src dst_fs dst).1
          = .ok (.error HdfsErr.Unknown)) := by
  simp only [HdfsUtil.copy, HdfsUtil.mv, cstringNew_eq_some hs,
    cstringNew_eq_some hd]
  by_cases hc : (hdfsCopy w ⟨src_fs.raw, src, dst_fs.raw, dst⟩).1 = 0 <;>
    by_cases hm : (hdfsMove w ⟨src_fs.raw, src, dst_fs.raw, dst⟩).1 = 0 <;>
      simp [hc, hm]

/-- Witness for C1 at the always-succeeding oracle, handles 1 and 2, and
paths `[97]`, `[98]`. -/
theorem copy_mv_success_iff_status_zero_witness :
    ((HdfsUtil.copy oracleZero W0 ⟨1⟩ [97] ⟨2⟩ [98]).1 = .ok (.ok true)
      ↔ (oracleZero W0 ⟨1, [97], 2, [98]⟩).1 = 0)
    ∧ ((oracleZero W0 ⟨1, [97], 2, [98]⟩).1 ≠ 0
      → (HdfsUtil.copy oracleZero W0 ⟨1⟩ [97] ⟨2⟩ [98]).1
          = .ok (.error HdfsErr.Unknown))
    ∧ ((HdfsUtil.mv oracleZero W0 ⟨1⟩ [97] ⟨2⟩ [98]).1 = .ok (.ok true)
      ↔ (oracleZero W0 ⟨1, [97], 2, [98]⟩).1 = 0)
    ∧ ((oracleZero W0 ⟨1, [97], 2, [98]⟩).1 ≠ 0
      → (HdfsUtil.mv oracleZero W0 ⟨1⟩ [97] ⟨2⟩ [98]).1
          = .ok (.error HdfsErr.Unknown)) :=
  copy_mv_success_iff_status_zero oracleZero oracleZero W0 ⟨1⟩ ⟨2⟩ [97] [98]
    (by decide) (by decide)

/-- Helper: the result of `HdfsUtil::copy` is one of exactly three shapes:
a panic, `Ok(true)`, or `Err(HdfsErr::Unknown)`. -/
theorem copy_result_cases (hdfsCopy : NativeFn) (w : FsWorld)
    (src_fs dst_fs : HdfsFs) (src dst : RStr) :
    (HdfsUtil.copy hdfsCopy w src_fs src dst_fs dst).1 = .panicked
    ∨ (HdfsUtil.copy hdfsCopy w src_fs src dst_fs dst).1 = .ok (.ok true)
    ∨ (HdfsUtil.copy hdfsCopy w src_fs src dst_fs dst).1
        = .ok (.error HdfsErr.Unknown) := by
  unfold HdfsUtil.copy
  rcases hcs : cstringNew src with _ | s
  · exact Or.inl rfl
  rcases hcd : cstringNew dst with _ | d
  · exact Or.inl rfl
  by_cases hr : (hdfsCopy w ⟨src_fs.raw, s, dst_fs.raw, d⟩).1 = 0
  · exact Or.inr (Or.inl (by simp [hr]))
  · exact Or.inr (Or.inr (by simp [hr]))

/-- Helper: the result of `HdfsUtil::mv` is one of exactly three shapes:
a panic, `Ok(true)`, or `Err(HdfsErr::Unknown)`. -/
theorem mv_result_cases (hdfsMove : NativeFn) (w : FsWorld)
    (src_fs dst_fs : HdfsFs) (src dst : RStr) :
    (HdfsUtil.mv hdfsMove w src_fs src dst_fs dst).1 = .panicked
    ∨ (HdfsUtil.mv hdfsMove w src_fs src dst_fs dst).1 = .ok (.ok true)
    ∨ (HdfsUtil.mv hdfsMove w src_fs src dst_fs dst).1
        = .ok (.error HdfsErr.Unknown) := by
  unfold HdfsUtil.mv
  rcases hcs : cstringNew src with _ | s
  · exact Or.inl rfl
  rcases hcd : cstringNew dst with _ | d
  · exact Or.inl rfl
  by_cases hr : (hdfsMove w ⟨src_fs.raw, s, dst_fs.raw, d⟩).1 = 0
  · exact Or.inr (Or.inl (by simp [hr]))
  · exact Or.inr (Or.inr (by simp [hr]))

/-- C4: whenever the source or destination path contains an embedded null
byte, both `HdfsUtil::copy` and `HdfsUtil::mv` fail during the
string-to-buffer conversion (the `unwrap()` panics) and the native entry
point is never invoked: the native call trace is empty. -/
theorem copy_mv_nul_byte_panics_before_native_call
    (hdfsCopy hdfsMove : NativeFn) (w : FsWorld)
    (src_fs dst_fs : HdfsFs) (src dst : RStr)
    (h : src.contains 0 = true ∨ dst.contains 0 = true) :
    (HdfsUtil.copy hdfsCopy w src_fs src dst_fs dst).1 = .panicked
    ∧ (HdfsUtil.copy hdfsCopy w src_fs src dst_fs dst).2.2 = []
    ∧ (HdfsUtil.mv hdfsMove w src_fs src dst_fs dst).1 = .panicked
    ∧ (HdfsUtil.mv hdfsMove w src_fs src dst_fs dst).2.2 = [] := by
  rcases h with h | h
  · simp [HdfsUtil.copy, HdfsUtil.mv, cstringNew_eq_none h]
  · rcases hcs : cstringNew src with _ | s <;>
      simp [HdfsUtil.copy, HdfsUtil.mv, hcs, cstringNew_eq_none h]

/-- Witness for C4 at a source path consisting of a single null byte. -/
theorem copy_mv_nul_byte_panics_before_native_call_witness :
    (HdfsUtil.copy oracleZero W0 ⟨1⟩ [0] ⟨2⟩ [98]).1 = .panicked
    ∧ (HdfsUtil.copy oracleZero W0 ⟨1⟩ [0] ⟨2⟩ [98]).2.2 = []
    ∧ (HdfsUtil.mv oracleZero W0 ⟨1⟩ [0] ⟨2⟩ [98]).1 = .panicked
    ∧ (HdfsUtil.mv oracleZero W0 ⟨1⟩ [0] ⟨2⟩ [98]).2.2 = [] :=
  copy_mv_nul_byte_panics_before_native_call oracleZero oracleZero W0
    ⟨1⟩ ⟨2⟩ [0] [98] (Or.inl (by decide))

/-- C9: for null-free paths the `CString` conversions always succeed, so
the `unwrap` panic branches are unreachable and both operations are total:
they reach the native call (the trace is the single expected call) and
return a `Result` value. -/
theorem copy_mv_total_without_nul
    (hdfsCopy hdfsMove : NativeFn) (w : FsWorld)
    (src_fs dst_fs : HdfsFs) (src dst : RStr)
    (hs : src.contains 0 = false) (hd : dst.contains 0 = false) :
    cstringNew src = some src ∧ cstringNew dst = some dst
    ∧ (∃ r : Except HdfsErr Bool,
        (HdfsUtil.copy hdfsCopy w src_fs src dst_fs dst).1 = .ok r)
    ∧ (HdfsUtil.copy hdfsCopy w src_fs src dst_fs dst).2.2
        = [⟨src_fs.raw, src, dst_fs.raw, dst⟩]
    ∧ (∃ r : Except HdfsErr Bool,
        (HdfsUtil.mv hdfsMove w src_fs src dst_fs dst).1 = .ok r)
    ∧ (HdfsUtil.mv hdfsMove w src_fs src dst_fs dst).2.2
        = [⟨src_fs.raw, src, dst_fs.raw, dst⟩] := by
  refine ⟨cstringNew_eq_some hs, cstringNew_eq_some hd, ?_, ?_, ?_, ?_⟩ <;>
    simp only [HdfsUtil.copy, HdfsUtil.mv,
      cstringNew_eq_some hs, cstringNew_eq_some hd]
  · by_cases hr : (hdfsCopy w ⟨src_fs.raw, src, dst_fs.raw, dst⟩).1 = 0
    · exact ⟨.ok true, by simp [hr]⟩
    · exact ⟨.error HdfsErr.Unknown, by simp [hr]⟩
  · by_cases hr : (hdfsMove w ⟨src_fs.raw, src, dst_fs.raw, dst⟩).1 = 0
    · exact ⟨.ok true, by simp [hr]⟩
    · exact ⟨.error HdfsErr.Unknown, by simp [hr]⟩

/-- Witness for C9 at null-free paths `[97]` and `[98]`. -/
theorem copy_mv_total_without_nul_witness :
    cstringNew [97] = some [97] ∧ cstringNew [98] = some [98]
    ∧ (∃ r : Except HdfsErr Bool,
        (HdfsUtil.copy oracleZero W0 ⟨1⟩ [97] ⟨2⟩ [98]).1 = .ok r)
    ∧ (HdfsUtil.copy oracleZero W0 ⟨1⟩ [97] ⟨2⟩ [98]).2.2
        = [⟨1, [97], 2, [98]⟩]
    ∧ (∃ r : Except HdfsErr Bool,
        (HdfsUtil.mv oracleZero W0 ⟨1⟩ [97] ⟨2⟩ [98]).1 = .ok r)
    ∧ (HdfsUtil.mv oracleZero W0 ⟨1⟩ [97] ⟨2⟩ [98]).2.2
        = [⟨1, [97], 2, [98]⟩] :=
  copy_mv_total_without_nul oracleZero oracleZero W0 ⟨1⟩ ⟨2⟩ [97] [98]
    (by decide) (by decide)

/-- C6: whenever `HdfsUtil::copy` or `HdfsUtil::mv` returns a success
value, that value is `true`: the result `Ok(false)` is unreachable, for
every native oracle, world and input. -/
theorem copy_mv_success_value_always_true
    (hdfsCopy hdfsMove : NativeFn) (w : FsWorld)
    (src_fs dst_fs : HdfsFs) (src dst : RStr) (b : Bool)
    (h : (HdfsUtil.copy hdfsCopy w src_fs src dst_fs dst).1 = .ok (.ok b)
      ∨ (HdfsUtil.mv hdfsMove w src_fs src dst_fs dst).1 = .ok (.ok b)) :
    b = true := by
  rcases h with h | h
  · rcases copy_result_cases hdfsCopy w src_fs dst_fs src dst with hc | hc | hc <;>
      rw [h] at hc <;> simp_all
  · rcases mv_result_cases hdfsMove w src_fs dst_fs src dst with hc | hc | hc <;>
      rw [h] at hc <;> simp_all

/-- Witness for C6: a concrete successful copy returns `Ok(true)`. -/
theorem copy_mv_success_value_always_true_witness :
    (HdfsUtil.copy oracleZero W0 ⟨1⟩ [97] ⟨2⟩ [98]).1 = .ok (.ok true)
    ∧ true = true :=
  ⟨by decide,
    copy_mv_success_value_always_true oracleZero oracleZero W0 ⟨1⟩ ⟨2⟩
      [97] [98] true (Or.inl (by decide))⟩

/-- C7: for null-free paths, each call to `HdfsUtil::copy` (resp.
`HdfsUtil::mv`) invokes its native entry point exactly once, with the
arguments in the order (source handle, source path, destination handle,
destination path), and never retries after a failure status: the trace is
the single expected call whatever status the oracle returns. -/
theorem copy_mv_invoke_native_exactly_once
    (hdfsCopy hdfsMove : NativeFn) (w : FsWorld)
    (src_fs dst_fs : HdfsFs) (src dst : RStr)
    (hs : src.contains 0 = false) (hd : dst.contains 0 = false) :
    (HdfsUtil.copy hdfsCopy w src_fs src dst_fs dst).2.2
      = [⟨src_fs.raw, src, dst_fs.raw, dst⟩]
    ∧ (HdfsUtil.mv hdfsMove w src_fs src dst_fs dst).2.2
      = [⟨src_fs.raw, src, dst_fs.raw, dst⟩] := by
  simp [HdfsUtil.copy, HdfsUtil.mv, cstringNew_eq_some hs,
    cstringNew_eq_some hd]

/-- Witness for C7 at the always-failing oracle: even on failure the native
entry point is called exactly once (no retry). -/
theorem copy_mv_invoke_native_exactly_once_witness :
    (HdfsUtil.copy oracleFail W0 ⟨1⟩ [97] ⟨2⟩ [98]).2.2
      = [⟨1, [97], 2, [98]⟩]
    ∧ (HdfsUtil.mv oracleFail W0 ⟨1⟩ [97] ⟨2⟩ [98]).2.2
      = [⟨1, [97], 2, [98]⟩] :=
  copy_mv_invoke_native_exactly_once oracleFail oracleFail W0 ⟨1⟩ ⟨2⟩
    [97] [98] (by decide) (by decide)

/-- C10: the only error value `HdfsUtil::copy` or `HdfsUtil::mv` ever
returns is `HdfsErr::Unknown`: no other variant, in particular no
path-encoding variant, is ever produced by these operations, for every
native oracle, world and input. -/
theorem copy_mv_only_error_is_unknown
    (hdfsCopy hdfsMove : NativeFn) (w : FsWorld)
    (src_fs dst_fs : HdfsFs) (src dst : RStr) (e : HdfsErr)
    (h : (HdfsUtil.copy hdfsCopy w src_fs src dst_fs dst).1 = .ok (.error e)
      ∨ (HdfsUtil.mv hdfsMove w src_fs src dst_fs dst).1 = .ok (.error e)) :
    e = HdfsErr.Unknown := by
  rcases h with h | h
  · rcases copy_result_cases hdfsCopy w src_fs dst_fs src dst with hc | hc | hc <;>
      rw [h] at hc <;> simp_all
  · rcases mv_result_cases hdfsMove w src_fs dst_fs src dst with hc | hc | hc <;>
      rw [h] at hc <;> simp_all

/-- Witness for C10: a concrete failed copy returns exactly
`Err(HdfsErr::Unknown)`. -/
theorem copy_mv_only_error_is_unknown_witness :
    (HdfsUtil.copy oracleFail W0 ⟨1⟩ [97] ⟨2⟩ [98]).1
      = .ok (.error HdfsErr.Unknown)
    ∧ HdfsErr.Unknown = HdfsErr.Unknown :=
  ⟨by decide,
    copy_mv_only_error_is_unknown oracleFail oracleFail W0 ⟨1⟩ ⟨2⟩
      [97] [98] HdfsErr.Unknown (Or.inl (by decide))⟩

/-- C2: against the spec-modelled native copy primitive, for distinct
handles, null-free paths and an existing source path,
`HdfsUtil::copy(srcFS, src, dstFS, dst)` succeeds with `Ok(true)`, the
destination path exists afterwards, and the source path still exists
afterwards. -/
theorem copy_succeeds_dest_exists_source_preserved
    (w : FsWorld) (src_fs dst_fs : HdfsFs) (src dst : RStr)
    (hfs : src_fs.raw ≠ dst_fs.raw)
    (hs : src.contains 0 = false) (hd : dst.contains 0 = false)
    (hex : w.pathExists src_fs.raw src = true) :
    (HdfsUtil.copy nativeCopy w src_fs src dst_fs dst).1 = .ok (.ok true)
    ∧ ((HdfsUtil.copy nativeCopy w src_fs src dst_fs dst).2.1).pathExists
        dst_fs.raw dst = true
    ∧ ((HdfsUtil.copy nativeCopy w src_fs src dst_fs dst).2.1).pathExists
        src_fs.raw src = true := by
  simp only [HdfsUtil.copy, cstringNew_eq_some hs, cstringNew_eq_some hd,
    nativeCopy]
  simp [hex, hfs]

/-- Witness for C2: copying path `[97]` from the filesystem of handle 1 to
path `[98]` on the filesystem of handle 2 in the concrete world. -/
theorem copy_succeeds_dest_exists_source_preserved_witness :
    (HdfsUtil.copy nativeCopy W0 ⟨1⟩ [97] ⟨2⟩ [98]).1 = .ok (.ok true)
    ∧ ((HdfsUtil.copy nativeCopy W0 ⟨1⟩ [97] ⟨2⟩ [98]).2.1).pathExists
        2 [98] = true
    ∧ ((HdfsUtil.copy nativeCopy W0 ⟨1⟩ [97] ⟨2⟩ [98]).2.1).pathExists
        1 [97] = true :=
  copy_succeeds_dest_exists_source_preserved W0 ⟨1⟩ ⟨2⟩ [97] [98]
    (by decide) (by decide) (by decide) (by decide)

/-- C3: against the spec-modelled native move primitive, for distinct
handles, null-free paths and an existing source path,
`HdfsUtil::mv(srcFS, src, dstFS, dst)` succeeds with `Ok(true)`, the
destination path exists afterwards, and the source path no longer exists
afterwards. -/
theorem mv_succeeds_dest_exists_source_removed
    (w : FsWorld) (src_fs dst_fs : HdfsFs) (src dst : RStr)
    (hfs : src_fs.raw ≠ dst_fs.raw)
    (hs : src.contains 0 = false) (hd : dst.contains 0 = false)
    (hex : w.pathExists src_fs.raw src = true) :
    (HdfsUtil.mv nativeMove w src_fs src dst_fs dst).1 = .ok (.ok true)
    ∧ ((HdfsUtil.mv nativeMove w src_fs src dst_fs dst).2.1).pathExists
        dst_fs.raw dst = true
    ∧ ((HdfsUtil.mv nativeMove w src_fs src dst_fs dst).2.1).pathExists
        src_fs.raw src = false := by
  simp only [HdfsUtil.mv, cstringNew_eq_some hs, cstringNew_eq_some hd,
    nativeMove]
  simp [hex, hfs]

/-- Witness for C3: moving path `[97]` from the filesystem of handle 1 to
path `[98]` on the filesystem of handle 2 in the concrete world. -/
theorem mv_succeeds_dest_exists_source_removed_witness :
    (HdfsUtil.mv nativeMove W0 ⟨1⟩ [97] ⟨2⟩ [98]).1 = .ok (.ok true)
    ∧ ((HdfsUtil.mv nativeMove W0 ⟨1⟩ [97] ⟨2⟩ [98]).2.1).pathExists
        2 [98] = true
    ∧ ((HdfsUtil.mv nativeMove W0 ⟨1⟩ [97] ⟨2⟩ [98]).2.1).pathExists
        1 [97] = false :=
  mv_succeeds_dest_exists_source_removed W0 ⟨1⟩ ⟨2⟩ [97] [98]
    (by decide) (by decide) (by decide) (by decide)

/-- C8: the wrapper layer itself never creates, closes or mutates a
filesystem handle: for every native oracle that leaves the open-handle set
unchanged (as both native transfer primitives do), both operations leave
the open-handle set unchanged on every input, and the handles are only
borrowed — each native call receives exactly the two raw handle values
passed in. -/
theorem copy_mv_preserve_handles
    (hdfsCopy hdfsMove : NativeFn)
    (hC : ∀ w c, ((hdfsCopy w c).2).handles = w.handles)
    (hM : ∀ w c, ((hdfsMove w c).2).handles = w.handles)
    (w : FsWorld) (src_fs dst_fs : HdfsFs) (src dst : RStr) :
    ((HdfsUtil.copy hdfsCopy w src_fs src dst_fs dst).2.1).handles
      = w.handles
    ∧ ((HdfsUtil.mv hdfsMove w src_fs src dst_fs dst).2.1).handles
      = w.handles
    ∧ (∀ c ∈ (HdfsUtil.copy hdfsCopy w src_fs src dst_fs dst).2.2,
        c.srcFS = src_fs.raw ∧ c.dstFS = dst_fs.raw)
    ∧ (∀ c ∈ (HdfsUtil.mv hdfsMove w src_fs src dst_fs dst).2.2,
        c.srcFS = src_fs.raw ∧ c.dstFS = dst_fs.raw) := by
  unfold HdfsUtil.copy HdfsUtil.mv
  rcases hcs : cstringNew src with _ | s
  · simp
  rcases hcd : cstringNew dst with _ | d
  · simp
  refine ⟨hC w _, hM w _, ?_, ?_⟩ <;>
    · intro c hc
      simp only [List.mem_singleton] at hc
      subst hc
      exact ⟨rfl, rfl⟩

/-- Witness for C8 at the spec-modelled native primitives, which indeed
leave the open-handle set unchanged. -/
theorem copy_mv_preserve_handles_witness :
    ((HdfsUtil.copy nativeCopy W0 ⟨1⟩ [97] ⟨2⟩ [98]).2.1).handles
      = W0.handles
    ∧ ((HdfsUtil.mv nativeMove W0 ⟨1⟩ [97] ⟨2⟩ [98]).2.1).handles
      = W0.handles
    ∧ (∀ c ∈ (HdfsUtil.copy nativeCopy W0 ⟨1⟩ [97] ⟨2⟩ [98]).2.2,
        c.srcFS = 1 ∧ c.dstFS = 2)
    ∧ (∀ c ∈ (HdfsUtil.mv nativeMove W0 ⟨1⟩ [97] ⟨2⟩ [98]).2.2,
        c.srcFS = 1 ∧ c.dstFS = 2) :=
  copy_mv_preserve_handles nativeCopy nativeMove
    (fun w c => by unfold nativeCopy; split <;> rfl)
    (fun w c => by unfold nativeMove; split <;> rfl)
    W0 ⟨1⟩ ⟨2⟩ [97] [98]

/-- C5 counterexample: at a source path consisting of a single null byte,
the conversion failure is not surfaced to the caller as any error value of
the wrapper's error type — the call panics instead, so neither the
invalid-path-encoding kind nor the generic kind is returned. -/
theorem nul_byte_not_surfaced_as_distinct_error_cex :
    (HdfsUtil.copy nativeCopy W0 ⟨1⟩ [0] ⟨2⟩ [98]).1 = .panicked
    ∧ (HdfsUtil.copy nativeCopy W0 ⟨1⟩ [0] ⟨2⟩ [98]).1
        ≠ .ok (.error HdfsErr.InvalidPathEncoding)
    ∧ (HdfsUtil.copy nativeCopy W0 ⟨1⟩ [0] ⟨2⟩ [98]).1
        ≠ .ok (.error HdfsErr.Unknown)
    ∧ (HdfsUtil.mv nativeMove W0 ⟨1⟩ [0] ⟨2⟩ [98]).1 = .panicked
    ∧ (HdfsUtil.mv nativeMove W0 ⟨1⟩ [0] ⟨2⟩ [98]).1
        ≠ .ok (.error HdfsErr.InvalidPathEncoding)
    ∧ (HdfsUtil.mv nativeMove W0 ⟨1⟩ [0] ⟨2⟩ [98]).1
        ≠ .ok (.error HdfsErr.Unknown) := by
  decide

/-- C5 as amended: a string-to-buffer conversion failure makes the
operation panic (fail-fast abort) before any native call, rather than being
surfaced as a distinct error value; no invalid-path-encoding variant is
ever returned by either operation. -/
theorem conversion_failure_panics_not_distinct_error
    (hdfsCopy hdfsMove : NativeFn) (w : FsWorld)
    (src_fs dst_fs : HdfsFs) (src dst : RStr) :
    ((src.contains 0 = true ∨ dst.contains 0 = true) →
      (HdfsUtil.copy hdfsCopy w src_fs src dst_fs dst).1 = .panicked
      ∧ (HdfsUtil.copy hdfsCopy w src_fs src dst_fs dst).2.2 = []
      ∧ (HdfsUtil.mv hdfsMove w src_fs src dst_fs dst).1 = .panicked
      ∧ (HdfsUtil.mv hdfsMove w src_fs src dst_fs dst).2.2 = [])
    ∧ (HdfsUtil.copy hdfsCopy w src_fs src dst_fs dst).1
        ≠ .ok (.error HdfsErr.InvalidPathEncoding)
    ∧ (HdfsUtil.mv hdfsMove w src_fs src dst_fs dst).1
        ≠ .ok (.error HdfsErr.InvalidPathEncoding) := by
  refine ⟨?_, ?_, ?_⟩
  · intro h
    rcases h with h | h
    · simp [HdfsUtil.copy, HdfsUtil.mv, cstringNew_eq_none h]
    · rcases hcs : cstringNew src with _ | s <;>
        simp [HdfsUtil.copy, HdfsUtil.mv, hcs, cstringNew_eq_none h]
  · rcases copy_result_cases hdfsCopy w src_fs dst_fs src dst
      with hc | hc | hc <;> rw [hc] <;> simp
  · rcases mv_result_cases hdfsMove w src_fs dst_fs src dst
      with hc | hc | hc <;> rw [hc] <;> simp

/-- Witness for the amended C5 at a source path consisting of a single null
byte. -/
theorem conversion_failure_panics_not_distinct_error_witness :
    ((([0] : RStr).contains 0 = true ∨ (([98] : RStr).contains 0 = true)) →
      (HdfsUtil.copy oracleZero W0 ⟨1⟩ [0] ⟨2⟩ [98]).1 = .panicked
      ∧ (HdfsUtil.copy oracleZero W0 ⟨1⟩ [0] ⟨2⟩ [98]).2.2 = []
      ∧ (HdfsUtil.mv oracleZero W0 ⟨1⟩ [0] ⟨2⟩ [98]).1 = .panicked
      ∧ (HdfsUtil.mv oracleZero W0 ⟨1⟩ [0] ⟨2⟩ [98]).2.2 = [])
    ∧ (HdfsUtil.copy oracleZero W0 ⟨1⟩ [0] ⟨2⟩ [98]).1
        ≠ .ok (.error HdfsErr.InvalidPathEncoding)
    ∧ (HdfsUtil.mv oracleZero W0 ⟨1⟩ [0] ⟨2⟩ [98]).1
        ≠ .ok (.error HdfsErr.InvalidPathEncoding) :=
  conversion_failure_panics_not_distinct_error oracleZero oracleZero W0
    ⟨1⟩ ⟨2⟩ [0] [98]

end FsHdfs
